import Mathlib

/-!
Verification development for the MonthDay value type (src/src/MonthDay.js):
an immutable ISO-8601 month-day pair, its factory/validation pipeline, its
derivation from a clock and from temporal-like objects, its default-pattern
parsing and its equality contract.

The JavaScript source is embedded shallowly: JS numbers become `Int`,
thrown exceptions become `Except DTError`, and the `requireNonNull` /
`requireInstance` guards are discharged by Lean typing (a typed argument can
be neither null nor of the wrong class).  External collaborators that are
not part of the staged source (the Month catalog, the ChronoField range
check, the Clock/LocalDate pair and the text formatter engine) are modelled
from the specification; each such definition says so in its doc comment.
-/

namespace JsJoda

/-- Error values raised by the embedded code.  In the JavaScript source all
of these are `DateTimeException` instances distinguished only by message;
the constructors here carry the data each message is built from, mirroring
the error taxonomy of the specification (RangeError, InvalidCombinationError,
ConversionError, ParseError). -/
inductive DTError where
  | rangeError (fieldName : String) (value : Int)
  | invalidCombination (dayOfMonth : Int) (monthName : String)
  | conversion (message : String)
  | parseError (text : String)
deriving DecidableEq, Repr

/-- Modelled from the spec: the Month Catalog collaborator (js-joda `Month`,
not under src/): an enumeration of the twelve months. -/
inductive Month where
  | january | february | march | april | may | june
  | july | august | september | october | november | december
deriving DecidableEq, Repr

/-- Modelled from the spec: the 1-based ordinal of a catalog month
(`Month.value()`). -/
def Month.value : Month → Int
  | .january => 1 | .february => 2 | .march => 3 | .april => 4
  | .may => 5 | .june => 6 | .july => 7 | .august => 8
  | .september => 9 | .october => 10 | .november => 11 | .december => 12

/-- Modelled from the spec: the maximum valid day count of a month assuming
a leap year (`Month.maxLength()`): February 29, the 30-day months 30, the
rest 31. -/
def Month.maxLength : Month → Int
  | .february => 29
  | .april | .june | .september | .november => 30
  | _ => 31

/-- Modelled from the spec: the display name of a catalog month
(`Month.name()`). -/
def Month.name : Month → String
  | .january => "JANUARY" | .february => "FEBRUARY" | .march => "MARCH"
  | .april => "APRIL" | .may => "MAY" | .june => "JUNE"
  | .july => "JULY" | .august => "AUGUST" | .september => "SEPTEMBER"
  | .october => "OCTOBER" | .november => "NOVEMBER" | .december => "DECEMBER"

/-- Modelled from the spec: `Month.of(month)` resolves an ordinal 1 to 12 to
its catalog entry and fails with a RangeError outside that range. -/
def Month.of (month : Int) : Except DTError Month :=
  match month with
  | 1 => .ok .january
  | 2 => .ok .february
  | 3 => .ok .march
  | 4 => .ok .april
  | 5 => .ok .may
  | 6 => .ok .june
  | 7 => .ok .july
  | 8 => .ok .august
  | 9 => .ok .september
  | 10 => .ok .october
  | 11 => .ok .november
  | 12 => .ok .december
  | _ => .error (.rangeError "MonthOfYear" month)

/-- The leap-year maximum day count as a function of the month ordinal, as
the specification phrases it (`maxLengthInLeapYear(m)`); 0 outside 1 to 12. -/
def maxLengthInLeapYear (m : Int) : Int :=
  match Month.of m with
  | .ok mo => mo.maxLength
  | .error _ => 0

/-- Modelled from the spec: the Field Validator collaborator
(`ChronoField.DAY_OF_MONTH.checkValidValue`, not under src/): confirms the
day lies in the raw range 1 to 31 and fails with a RangeError otherwise. -/
def checkValidDayOfMonth (day : Int) : Except DTError Int :=
  if 1 ≤ day ∧ day ≤ 31 then .ok day
  else .error (.rangeError "DayOfMonth" day)

/-- The MonthDay value itself: the two fields the JS constructor stores
(`this._month = month; this._day = dayOfMonth`).  A Lean structure is
immutable, matching the class contract. -/
structure MonthDay where
  _month : Int
  _day : Int
deriving DecidableEq, Repr

/-- `monthValue()`: returns the stored month ordinal. -/
def MonthDay.monthValue (md : MonthDay) : Int := md._month

/-- `dayOfMonth()`: returns the stored day. -/
def MonthDay.dayOfMonth (md : MonthDay) : Int := md._day

/-- `month()`: resolves the stored ordinal to its catalog entry. -/
def MonthDay.month (md : MonthDay) : Except DTError Month :=
  Month.of md._month

/-- `MonthDay._ofMonthNumber(month, dayOfMonth)`: range-check the day, then
the month-length compatibility check, then construct.  The thrown message
is `Illegal value for DayOfMonth field, value D is not valid for month N`;
the error constructor carries the day `D` and the month name `N` it is
built from. -/
def MonthDay._ofMonthNumber (month : Month) (dayOfMonth : Int) :
    Except DTError MonthDay :=
  match checkValidDayOfMonth dayOfMonth with
  | .error e => .error e
  | .ok _ =>
    if month.maxLength < dayOfMonth then
      .error (.invalidCombination dayOfMonth month.name)
    else
      .ok ⟨month.value, dayOfMonth⟩

/-- `MonthDay._ofNumberNumber(month, dayOfMonth)`: resolve the month number
through the catalog (its RangeError propagates first), then delegate to
`_ofMonthNumber` via the `of` dispatch. -/
def MonthDay._ofNumberNumber (month dayOfMonth : Int) :
    Except DTError MonthDay :=
  match Month.of month with
  | .error e => .error e
  | .ok mo => MonthDay._ofMonthNumber mo dayOfMonth

/-- The semantic fields the conversion path extracts
(`ChronoField.MONTH_OF_YEAR`, `ChronoField.DAY_OF_MONTH`). -/
inductive ChronoField where
  | MONTH_OF_YEAR
  | DAY_OF_MONTH
deriving DecidableEq, Repr

/-- Modelled from the spec: a non-MonthDay temporal accessor as the Date
Extraction Protocol sees it: a printable description (its JS string
coercion), its constructor name, and a partial field lookup —
`get` answers `none` where the JS `temporal.get(field)` would throw. -/
structure TemporalFieldSource where
  description : String
  typeName : String
  get : ChronoField → Option Int

/-- An argument acceptable to `MonthDay.from` after the
`requireInstance(temporal, TemporalAccessor)` guard: either already a
MonthDay or some other field-bearing accessor. -/
inductive TemporalAccessor where
  | monthDay (md : MonthDay)
  | other (src : TemporalFieldSource)

/-- JS unary plus applied to a string, restricted to the strings that occur
here (constructor names and the empty string): the empty string coerces to
0, a pure digit string to its numeric value, anything else to NaN.  This is
what the doubled `+` on line 199 of the source applies to the constructor
name. -/
def jsUnaryPlus (s : String) : String :=
  if s = "" then "0"
  else if s.toList.all Char.isDigit then toString (s.toNat?.getD 0)
  else "NaN"

/-- The message built by the catch-all in `MonthDay.from`, character for
character: note the doubled plus sign in the source
(`', type ' + +(...constructor.name...)`) coerces the constructor name with
JS unary plus before concatenating it. -/
def conversionMessage (description typeName : String) : String :=
  "Unable to obtain MonthDay from TemporalAccessor: " ++ description
    ++ ", type " ++ jsUnaryPlus typeName

/-- `MonthDay.from(temporal)`: identity short-circuit for a MonthDay input;
otherwise extract the two fields and delegate to `MonthDay.of` inside a
try/catch whose catch rethrows every failure as the single conversion
error. -/
def MonthDay.from (temporal : TemporalAccessor) : Except DTError MonthDay :=
  match temporal with
  | .monthDay md => .ok md
  | .other src =>
    match (match src.get .MONTH_OF_YEAR, src.get .DAY_OF_MONTH with
           | some m, some d => MonthDay._ofNumberNumber m d
           | _, _ => .error (.conversion "unsupported field")) with
    | .ok md => .ok md
    | .error _ =>
      .error (.conversion (conversionMessage src.description src.typeName))

/-- `equals(obj)`: the JS argument may be any object or null.  The identity
branch of the source (`this === obj`) is subsumed in this pure model by the
structural branch, since an object is structurally equal to itself. -/
inductive JsObj where
  | monthDay (md : MonthDay)
  | nullObj
  | otherObj (description : String)

/-- `equals(obj)`: true exactly when `obj` is a MonthDay whose month ordinal
and day both agree; false for null and for every non-MonthDay object. -/
def MonthDay.equals (this : MonthDay) (obj : JsObj) : Bool :=
  match obj with
  | .monthDay other =>
    this.monthValue == other.monthValue && this.dayOfMonth == other.dayOfMonth
  | .nullObj => false
  | .otherObj _ => false

/-- Modelled from the spec: the Clock Source collaborator reduced to what
`_nowClock` reads from it — the current date, carried as the (year, month
entry, day) triple `LocalDate.now(clock)` would produce. -/
structure LocalDate where
  year : Int
  month : Month
  dayOfMonth : Int

/-- Modelled from the spec: a clock supplies the current date; a fixed clock
is one whose date is a constant. -/
structure Clock where
  today : LocalDate

/-- `MonthDay._nowClock(clock)`: read the current date from the clock once
and delegate its month entry and day to `MonthDay.of`, which dispatches to
`_ofMonthNumber` because the first argument is a Month. -/
def MonthDay._nowClock (clock : Clock) : Except DTError MonthDay :=
  let now := clock.today
  MonthDay._ofMonthNumber now.month now.dayOfMonth

/-- Modelled from the spec: the fixed clock at 2021-02-17 used by the
testable property for `nowFromClock`. -/
def fixedClock_2021_02_17 : Clock := ⟨⟨2021, .february, 17⟩⟩

/-- Two leading decimal digits of a character stream, as the formatter
engine reads a width-2 `appendValue` field. -/
def twoDigits : List Char → Option (Int × List Char)
  | c1 :: c2 :: rest =>
    if c1.isDigit ∧ c2.isDigit then
      some (((c1.toNat - 48) * 10 + (c2.toNat - 48) : Int), rest)
    else none
  | _ => none

/-- Modelled from the spec: the Text Formatter/Parser collaborator running
the default pattern `--MM-dd` (literal `--`, two-digit month, literal `-`,
two-digit day, nothing after): yields the raw (month, day) field pair or
fails. -/
def parseDefaultPattern (text : String) : Option (Int × Int) :=
  match text.toList with
  | '-' :: '-' :: rest =>
    match twoDigits rest with
    | some (m, '-' :: rest2) =>
      match twoDigits rest2 with
      | some (d, []) => some (m, d)
      | _ => none
    | _ => none
  | _ => none

/-- Modelled from the spec: a formatter as `_parseStringFormatter` uses it —
its field-extraction behaviour on a text. -/
structure DateTimeFormatter where
  parseFields : String → Option (Int × Int)

/-- The process-wide default formatter `PARSER`, bound once to the literal
pattern `--MM-dd` by `_init`. -/
def PARSER : DateTimeFormatter := ⟨parseDefaultPattern⟩

/-- The intermediate field accumulator the formatter hands to the
`MonthDay.FROM` query: a temporal accessor exposing exactly the two parsed
fields. -/
def parsedFieldsAccessor (m d : Int) : TemporalFieldSource :=
  ⟨"DateTimeBuilder", "DateTimeBuilder",
    fun f => match f with
      | .MONTH_OF_YEAR => some m
      | .DAY_OF_MONTH => some d⟩

/-- `MonthDay._parseStringFormatter(text, formatter)`: fully delegated to
the formatter, which materializes the value through the registered
`MonthDay.FROM` query, i.e. through `MonthDay.from` on the field
accumulator; a formatter failure surfaces as its own parse error,
unwrapped. -/
def MonthDay._parseStringFormatter (text : String)
    (formatter : DateTimeFormatter) : Except DTError MonthDay :=
  match formatter.parseFields text with
  | none => .error (.parseError text)
  | some (m, d) => MonthDay.from (.other (parsedFieldsAccessor m d))

/-- `MonthDay._parseString(text)`: the no-formatter form, bound to the
process-wide default `PARSER`. -/
def MonthDay._parseString (text : String) : Except DTError MonthDay :=
  MonthDay._parseStringFormatter text PARSER

/-- Modelled from the spec: formatting a value back through the default
pattern `--MM-dd` (two-digit zero-padded month and day behind the literal
markers). -/
def pad2 (n : Int) : String :=
  if 0 ≤ n ∧ n < 10 then "0" ++ toString n else toString n

/-- Formatting through the default pattern, the inverse direction of
`parseDefaultPattern`. -/
def formatDefaultPattern (md : MonthDay) : String :=
  "--" ++ pad2 md.monthValue ++ "-" ++ pad2 md.dayOfMonth

/-- The joint validity invariant of the specification data model: month in
1 to 12, day in 1 to 31, and day within the leap-year maximum of the
month. -/
def MonthDay.valid (md : MonthDay) : Prop :=
  1 ≤ md._month ∧ md._month ≤ 12 ∧ 1 ≤ md._day ∧ md._day ≤ 31
    ∧ md._day ≤ maxLengthInLeapYear md._month

instance (md : MonthDay) : Decidable md.valid := by
  unfold MonthDay.valid; infer_instance

/-- The display name reached through the catalog from a month ordinal; empty
outside 1 to 12, where no catalog entry exists. -/
def monthName (m : Int) : String :=
  match Month.of m with
  | .ok mo => mo.name
  | .error _ => ""

/-! Helper lemmas shared by the claim theorems. -/

theorem Month.maxLength_le (mo : Month) : mo.maxLength ≤ 31 := by
  cases mo <;> decide

theorem Month.maxLength_pos (mo : Month) : 1 ≤ mo.maxLength := by
  cases mo <;> decide

theorem Month.value_bounds (mo : Month) : 1 ≤ mo.value ∧ mo.value ≤ 12 := by
  cases mo <;> decide

theorem maxLengthInLeapYear_value (mo : Month) :
    maxLengthInLeapYear mo.value = mo.maxLength := by
  cases mo <;> rfl

theorem Month.of_ok_of_bounds (m : Int) (h1 : 1 ≤ m) (h2 : m ≤ 12) :
    ∃ mo : Month, Month.of m = .ok mo ∧ mo.value = m := by
  interval_cases m <;> exact ⟨_, rfl, rfl⟩

theorem Month.of_err_of_out (m : Int) (h : m < 1 ∨ 12 < m) :
    Month.of m = .error (.rangeError "MonthOfYear" m) := by
  unfold Month.of
  split <;> first | rfl | omega

theorem checkValid_ok (d : Int) (h1 : 1 ≤ d) (h2 : d ≤ 31) :
    checkValidDayOfMonth d = .ok d := by
  unfold checkValidDayOfMonth
  rw [if_pos ⟨h1, h2⟩]

theorem checkValid_err (d : Int) (h : d < 1 ∨ 31 < d) :
    checkValidDayOfMonth d = .error (.rangeError "DayOfMonth" d) := by
  unfold checkValidDayOfMonth
  rw [if_neg (by omega)]

theorem ofNumberNumber_ok_month (m : Int) (mo : Month)
    (hmo : Month.of m = .ok mo) (d : Int) :
    MonthDay._ofNumberNumber m d = MonthDay._ofMonthNumber mo d := by
  unfold MonthDay._ofNumberNumber
  rw [hmo]

theorem ofNumberNumber_err_month (m : Int) (e : DTError)
    (hmo : Month.of m = .error e) (d : Int) :
    MonthDay._ofNumberNumber m d = .error e := by
  unfold MonthDay._ofNumberNumber
  rw [hmo]

theorem ofMonthNumber_checkOk (mo : Month) (d : Int)
    (hc : checkValidDayOfMonth d = .ok d) :
    MonthDay._ofMonthNumber mo d =
      (if mo.maxLength < d then .error (.invalidCombination d mo.name)
       else .ok ⟨mo.value, d⟩) := by
  unfold MonthDay._ofMonthNumber
  rw [hc]

theorem ofMonthNumber_checkErr (mo : Month) (d : Int) (e : DTError)
    (hc : checkValidDayOfMonth d = .error e) :
    MonthDay._ofMonthNumber mo d = .error e := by
  unfold MonthDay._ofMonthNumber
  rw [hc]

theorem ofMonthNumber_ok (mo : Month) (d : Int) (h1 : 1 ≤ d)
    (h2 : d ≤ mo.maxLength) :
    MonthDay._ofMonthNumber mo d = .ok ⟨mo.value, d⟩ := by
  have h31 := Month.maxLength_le mo
  rw [ofMonthNumber_checkOk mo d (checkValid_ok d h1 (by omega))]
  rw [if_neg (by omega)]

theorem ofMonthNumber_ok_inv (mo : Month) (d : Int) (md : MonthDay)
    (h : MonthDay._ofMonthNumber mo d = .ok md) :
    1 ≤ d ∧ d ≤ mo.maxLength ∧ md = ⟨mo.value, d⟩ := by
  by_cases hd : 1 ≤ d ∧ d ≤ 31
  · rw [ofMonthNumber_checkOk mo d (checkValid_ok d hd.1 hd.2)] at h
    by_cases hgt : mo.maxLength < d
    · rw [if_pos hgt] at h
      cases h
    · rw [if_neg hgt] at h
      cases h
      exact ⟨hd.1, by omega, rfl⟩
  · rw [ofMonthNumber_checkErr mo d _ (checkValid_err d (by omega))] at h
    cases h

theorem ofNumberNumber_ok_inv (m d : Int) (md : MonthDay)
    (h : MonthDay._ofNumberNumber m d = .ok md) :
    ∃ mo : Month, Month.of m = .ok mo ∧ mo.value = m
      ∧ MonthDay._ofMonthNumber mo d = .ok md := by
  by_cases hm : 1 ≤ m ∧ m ≤ 12
  · obtain ⟨mo, hmo, hval⟩ := Month.of_ok_of_bounds m hm.1 hm.2
    refine ⟨mo, hmo, hval, ?_⟩
    rw [← ofNumberNumber_ok_month m mo hmo d]
    exact h
  · rw [ofNumberNumber_err_month m _ (Month.of_err_of_out m (by omega)) d] at h
    cases h

theorem ofMonthNumber_valid (mo : Month) (d : Int) (md : MonthDay)
    (h : MonthDay._ofMonthNumber mo d = .ok md) : md.valid := by
  obtain ⟨h1, h2, rfl⟩ := ofMonthNumber_ok_inv mo d md h
  have hb := Month.value_bounds mo
  have hl := Month.maxLength_le mo
  refine ⟨hb.1, hb.2, h1, show d ≤ 31 by omega, ?_⟩
  show d ≤ maxLengthInLeapYear mo.value
  rw [maxLengthInLeapYear_value mo]
  exact h2

theorem ofNumberNumber_valid (m d : Int) (md : MonthDay)
    (h : MonthDay._ofNumberNumber m d = .ok md) : md.valid := by
  obtain ⟨mo, _, _, hof⟩ := ofNumberNumber_ok_inv m d md h
  exact ofMonthNumber_valid mo d md hof

theorem from_other_eq (src : TemporalFieldSource) (m d : Int)
    (hm : src.get .MONTH_OF_YEAR = some m) (hd : src.get .DAY_OF_MONTH = some d) :
    MonthDay.from (.other src) =
      match MonthDay._ofNumberNumber m d with
      | .ok md => .ok md
      | .error _ =>
        .error (.conversion (conversionMessage src.description src.typeName)) := by
  simp only [MonthDay.from]
  rw [hm, hd]

theorem from_other_missing (src : TemporalFieldSource)
    (h : src.get .MONTH_OF_YEAR = none ∨ src.get .DAY_OF_MONTH = none) :
    MonthDay.from (.other src)
      = .error (.conversion (conversionMessage src.description src.typeName)) := by
  cases hm : src.get .MONTH_OF_YEAR with
  | none =>
    cases hd : src.get .DAY_OF_MONTH with
    | none => simp only [MonthDay.from, hm, hd]
    | some d => simp only [MonthDay.from, hm, hd]
  | some m =>
    cases hd : src.get .DAY_OF_MONTH with
    | none => simp only [MonthDay.from, hm, hd]
    | some d =>
      rcases h with h | h
      · rw [hm] at h
        cases h
      · rw [hd] at h
        cases h

theorem from_other_valid (src : TemporalFieldSource) (md : MonthDay)
    (h : MonthDay.from (.other src) = .ok md) : md.valid := by
  cases hm : src.get .MONTH_OF_YEAR with
  | none =>
    rw [from_other_missing src (.inl hm)] at h
    cases h
  | some m =>
    cases hd : src.get .DAY_OF_MONTH with
    | none =>
      rw [from_other_missing src (.inr hd)] at h
      cases h
    | some d =>
      rw [from_other_eq src m d hm hd] at h
      cases hof : MonthDay._ofNumberNumber m d with
      | ok md2 =>
        rw [hof] at h
        cases h
        exact ofNumberNumber_valid m d _ hof
      | error e =>
        rw [hof] at h
        cases h

theorem nowClock_valid (c : Clock) (md : MonthDay)
    (h : MonthDay._nowClock c = .ok md) : md.valid :=
  ofMonthNumber_valid c.today.month c.today.dayOfMonth md h

theorem parse_string_valid (t : String) (md : MonthDay)
    (h : MonthDay._parseString t = .ok md) : md.valid := by
  unfold MonthDay._parseString MonthDay._parseStringFormatter at h
  cases hp : PARSER.parseFields t with
  | none =>
    rw [hp] at h
    cases h
  | some p =>
    obtain ⟨m, d⟩ := p
    rw [hp] at h
    exact from_other_valid _ md h

/-! The claim theorems. -/

/-- C1: for every month number m in 1..12 and day d with
1 ≤ d ≤ maxLengthInLeapYear m, the ofNumbers factory succeeds and the
result answers m from monthValue and d from dayOfMonth; in particular
ofNumbers 2 29 succeeds and equals ofMonthAndDay FEBRUARY 29. -/
theorem ofNumbers_in_leap_range_succeeds (m d : Int) (hm1 : 1 ≤ m)
    (hm2 : m ≤ 12) (hd1 : 1 ≤ d) (hd2 : d ≤ maxLengthInLeapYear m) :
    (∃ md, MonthDay._ofNumberNumber m d = .ok md
      ∧ md.monthValue = m ∧ md.dayOfMonth = d)
    ∧ (∃ md29, MonthDay._ofNumberNumber 2 29 = .ok md29)
    ∧ MonthDay._ofNumberNumber 2 29 = MonthDay._ofMonthNumber .february 29 := by
  refine ⟨?_, ⟨⟨2, 29⟩, rfl⟩, rfl⟩
  obtain ⟨mo, hmo, hval⟩ := Month.of_ok_of_bounds m hm1 hm2
  have hmax : maxLengthInLeapYear m = mo.maxLength := by
    rw [← hval, maxLengthInLeapYear_value]
  refine ⟨⟨mo.value, d⟩, ?_, hval, rfl⟩
  rw [ofNumberNumber_ok_month m mo hmo d]
  exact ofMonthNumber_ok mo d hd1 (by omega)

/-- Witness for C1 at month 2, day 29, the unconditional leap day. -/
theorem ofNumbers_in_leap_range_succeeds_witness :
    (∃ md, MonthDay._ofNumberNumber 2 29 = .ok md
      ∧ md.monthValue = 2 ∧ md.dayOfMonth = 29)
    ∧ (∃ md29, MonthDay._ofNumberNumber 2 29 = .ok md29)
    ∧ MonthDay._ofNumberNumber 2 29 = MonthDay._ofMonthNumber .february 29 :=
  ofNumbers_in_leap_range_succeeds 2 29 (by decide) (by decide) (by decide)
    (by decide)

/-- C2: every MonthDay a factory path makes observable satisfies the joint
validity invariant (month in 1..12, day in 1..31, day within the leap-year
month length); the accessors answer the stored fields unchanged and the
identity conversion returns its input, so in this pure embedding no
operation mutates a constructed value and no invalid instance is ever
returned. -/
theorem monthDay_invariants :
    (∀ (mo : Month) (d : Int) (md : MonthDay),
        MonthDay._ofMonthNumber mo d = .ok md → md.valid)
    ∧ (∀ (m d : Int) (md : MonthDay),
        MonthDay._ofNumberNumber m d = .ok md → md.valid)
    ∧ (∀ (c : Clock) (md : MonthDay),
        MonthDay._nowClock c = .ok md → md.valid)
    ∧ (∀ (t : String) (md : MonthDay),
        MonthDay._parseString t = .ok md → md.valid)
    ∧ (∀ (src : TemporalFieldSource) (md : MonthDay),
        MonthDay.from (.other src) = .ok md → md.valid)
    ∧ (∀ md : MonthDay, MonthDay.from (.monthDay md) = .ok md)
    ∧ (∀ md : MonthDay, md.monthValue = md._month ∧ md.dayOfMonth = md._day) :=
  ⟨ofMonthNumber_valid, ofNumberNumber_valid, nowClock_valid,
   parse_string_valid, from_other_valid, fun _ => rfl, fun _ => ⟨rfl, rfl⟩⟩

/-- C3: a day in the raw range 1..31 that exceeds the leap-year maximum of
its month makes both factories fail with the invalid-combination error
carrying the offending day and the month display name; in particular
ofNumbers 4 31 and ofNumbers 2 30 fail this way. -/
theorem invalid_combination_error (m d : Int) (hm1 : 1 ≤ m) (hm2 : m ≤ 12)
    (hd1 : 1 ≤ d) (hd2 : d ≤ 31) (hgt : maxLengthInLeapYear m < d) :
    MonthDay._ofNumberNumber m d = .error (.invalidCombination d (monthName m))
    ∧ (∀ mo : Month, mo.maxLength < d →
        MonthDay._ofMonthNumber mo d = .error (.invalidCombination d mo.name))
    ∧ MonthDay._ofNumberNumber 4 31 = .error (.invalidCombination 31 "APRIL")
    ∧ MonthDay._ofNumberNumber 2 30
        = .error (.invalidCombination 30 "FEBRUARY") := by
  have hcomb : ∀ mo : Month, mo.maxLength < d →
      MonthDay._ofMonthNumber mo d = .error (.invalidCombination d mo.name) := by
    intro mo hlt
    rw [ofMonthNumber_checkOk mo d (checkValid_ok d hd1 hd2), if_pos hlt]
  refine ⟨?_, hcomb, rfl, rfl⟩
  obtain ⟨mo, hmo, hval⟩ := Month.of_ok_of_bounds m hm1 hm2
  have hmax : maxLengthInLeapYear m = mo.maxLength := by
    rw [← hval, maxLengthInLeapYear_value]
  have hname : monthName m = mo.name := by
    unfold monthName
    rw [hmo]
  rw [hname, ofNumberNumber_ok_month m mo hmo d]
  exact hcomb mo (by omega)

/-- Witness for C3 at month 4, day 31: the max of April is 30. -/
theorem invalid_combination_error_witness :
    MonthDay._ofNumberNumber 4 31
        = .error (.invalidCombination 31 (monthName 4))
    ∧ (∀ mo : Month, mo.maxLength < 31 →
        MonthDay._ofMonthNumber mo 31
          = .error (.invalidCombination 31 mo.name))
    ∧ MonthDay._ofNumberNumber 4 31 = .error (.invalidCombination 31 "APRIL")
    ∧ MonthDay._ofNumberNumber 2 30
        = .error (.invalidCombination 30 "FEBRUARY") :=
  invalid_combination_error 4 31 (by decide) (by decide) (by decide)
    (by decide) (by decide)

/-- C4: a raw numeric field outside its legal bounds fails with a range
error raised before any month-day compatibility check: an out-of-range
month number fails with the MonthOfYear range error whatever the day, an
out-of-range day fails with the DayOfMonth range error whatever the month,
and ofNumbers 13 1 and ofNumbers 0 1 fail with range errors. -/
theorem range_error_before_combination :
    (∀ m d : Int, (m < 1 ∨ 12 < m) →
        MonthDay._ofNumberNumber m d = .error (.rangeError "MonthOfYear" m))
    ∧ (∀ (mo : Month) (d : Int), (d < 1 ∨ 31 < d) →
        MonthDay._ofMonthNumber mo d = .error (.rangeError "DayOfMonth" d))
    ∧ (∀ m d : Int, 1 ≤ m → m ≤ 12 → (d < 1 ∨ 31 < d) →
        MonthDay._ofNumberNumber m d = .error (.rangeError "DayOfMonth" d))
    ∧ MonthDay._ofNumberNumber 13 1 = .error (.rangeError "MonthOfYear" 13)
    ∧ MonthDay._ofNumberNumber 0 1 = .error (.rangeError "MonthOfYear" 0) := by
  refine ⟨?_, ?_, ?_, rfl, rfl⟩
  · intro m d h
    exact ofNumberNumber_err_month m _ (Month.of_err_of_out m h) d
  · intro mo d h
    exact ofMonthNumber_checkErr mo d _ (checkValid_err d h)
  · intro m d hm1 hm2 h
    obtain ⟨mo, hmo, _⟩ := Month.of_ok_of_bounds m hm1 hm2
    rw [ofNumberNumber_ok_month m mo hmo d]
    exact ofMonthNumber_checkErr mo d _ (checkValid_err d h)

/-- C5: from returns a MonthDay input itself, unchanged, so it is
idempotent on its own outputs. -/
theorem from_identity_short_circuit (md : MonthDay) :
    MonthDay.from (.monthDay md) = .ok md
    ∧ (∀ (t : TemporalAccessor) (md0 : MonthDay),
        MonthDay.from t = .ok md0 →
          MonthDay.from (.monthDay md0) = .ok md0) :=
  ⟨rfl, fun _ _ _ => rfl⟩

/-- C6: the equality contract: true on a MonthDay exactly when month ordinal
and day both agree (hence reflexive and symmetric), false on null and on
every non-MonthDay object; ofNumbers 3 15 equals ofNumbers 3 15 and differs
from ofNumbers 3 16. -/
theorem equals_contract (a b : MonthDay) :
    MonthDay.equals a (.monthDay a) = true
    ∧ (MonthDay.equals a (.monthDay b) = true ↔
        a.monthValue = b.monthValue ∧ a.dayOfMonth = b.dayOfMonth)
    ∧ MonthDay.equals a (.monthDay b) = MonthDay.equals b (.monthDay a)
    ∧ MonthDay.equals a .nullObj = false
    ∧ (∀ s, MonthDay.equals a (.otherObj s) = false)
    ∧ MonthDay._ofNumberNumber 3 15 = .ok ⟨3, 15⟩
    ∧ MonthDay._ofNumberNumber 3 16 = .ok ⟨3, 16⟩
    ∧ MonthDay.equals ⟨3, 15⟩ (.monthDay ⟨3, 15⟩) = true
    ∧ MonthDay.equals ⟨3, 15⟩ (.monthDay ⟨3, 16⟩) = false := by
  have hiff : ∀ x y : MonthDay, (MonthDay.equals x (.monthDay y) = true ↔
      x.monthValue = y.monthValue ∧ x.dayOfMonth = y.dayOfMonth) := by
    intro x y
    simp only [MonthDay.equals]
    rw [Bool.and_eq_true, beq_iff_eq, beq_iff_eq]
  refine ⟨?_, hiff a b, ?_, rfl, fun s => rfl, rfl, rfl, rfl, rfl⟩
  · exact (hiff a a).mpr ⟨rfl, rfl⟩
  · rw [Bool.eq_iff_iff, hiff a b, hiff b a]
    constructor <;> rintro ⟨h1, h2⟩ <;> exact ⟨h1.symm, h2.symm⟩

/-- C7: nowFromClock reads the current date from the clock and delegates
its month and day to ofMonthAndDay; at the fixed clock 2021-02-17 the
result is the value of ofNumbers 2 17. -/
theorem nowClock_delegates (clock : Clock) :
    MonthDay._nowClock clock
      = MonthDay._ofMonthNumber clock.today.month clock.today.dayOfMonth
    ∧ MonthDay._nowClock fixedClock_2021_02_17 = MonthDay._ofNumberNumber 2 17
    ∧ MonthDay._nowClock fixedClock_2021_02_17 = .ok ⟨2, 17⟩ :=
  ⟨rfl, rfl, rfl⟩

/-- C8: the no-formatter parse is bound to the process-wide default
formatter holding the pattern with literal markers and two-digit fields;
parsing the text yields month 12 and day 3, and formatting that value back
through the default pattern reproduces the text, a round trip. -/
theorem parse_default_pattern_roundtrip :
    (∀ text, MonthDay._parseString text
        = MonthDay._parseStringFormatter text PARSER)
    ∧ MonthDay._parseString "--12-03" = .ok ⟨12, 3⟩
    ∧ (MonthDay.mk 12 3).monthValue = 12
    ∧ (MonthDay.mk 12 3).dayOfMonth = 3
    ∧ formatDefaultPattern ⟨12, 3⟩ = "--12-03" :=
  ⟨fun _ => rfl, rfl, rfl, rfl, rfl⟩

/-- C9: at a temporal source that fails field extraction, from raises the
conversion error naming the source description — but where the message
should name the type it holds the string NaN: the doubled plus sign on line
199 of the source applies JS unary plus to the constructor name instead of
appending it, so the type is never named. -/
theorem from_conversion_message_type_is_NaN :
    MonthDay.from (.other ⟨"SomeDate", "SomeDate", fun _ => none⟩)
      = .error (.conversion
          "Unable to obtain MonthDay from TemporalAccessor: SomeDate, type NaN")
    ∧ jsUnaryPlus "SomeDate" = "NaN" :=
  ⟨rfl, rfl⟩

/-- C10: a non-MonthDay source whose extracted fields form an invalid
month-day combination makes from fail with the generic conversion error —
the catch-all wrap — not with the invalid-combination error raised inside
the wrapped extraction step. -/
theorem from_invalid_combination_wrapped (src : TemporalFieldSource)
    (m d : Int) (hm : src.get .MONTH_OF_YEAR = some m)
    (hd : src.get .DAY_OF_MONTH = some d) (e : DTError)
    (herr : MonthDay._ofNumberNumber m d = .error e) :
    MonthDay.from (.other src)
      = .error (.conversion
          (conversionMessage src.description src.typeName)) := by
  rw [from_other_eq src m d hm hd, herr]

/-- Witness for C10: a source carrying month-of-year 4 and day-of-month 31,
whose staged validation fails with the invalid-combination error inside the
wrapped step. -/
theorem from_invalid_combination_wrapped_witness :
    MonthDay.from (.other (parsedFieldsAccessor 4 31))
      = .error (.conversion
          (conversionMessage "DateTimeBuilder" "DateTimeBuilder")) :=
  from_invalid_combination_wrapped (parsedFieldsAccessor 4 31) 4 31 rfl rfl
    (.invalidCombination 31 "APRIL") rfl

end JsJoda
